import Mathlib

/-!
Verification of the hotel-booking voice-dialogue controller (`src/main.py`).

The core of the program is the pure transition function `process_user_input`
(main.py lines 35-87) over a per-call conversation-state dictionary, plus a
process-wide session store `active_calls` read and written by the two webhook
handlers `incoming_call` (lines 105-108) and `gather_response` (lines 134-136).

Shallow embedding choices:
* A Python state dict is modelled by `ConvState`, a record of the four keys the
  program ever reads or writes (`step`, `location`, `dates`, `room_type`), each
  an `Option String` (`none` = key absent).  The Python test
  `not state or "step" not in state` is equivalent, over these dicts, to
  `state.step = none`, since an empty dict in particular has no `step` key.
* The `state` parameter may also be `None` in Python; `process_user_input_opt`
  models the function over `Option ConvState`, returning `Except` to expose
  the `AttributeError` the code raises when the empty-utterance branch calls
  `state.get` on `None` (main.py line 45, before the line-57 guard).
* Python `str.strip()` is modelled by `pyStrip`: drop Unicode-whitespace
  characters from both ends of the character list.
* Python `str.lower()` is modelled by mapping `Char.toLower` over the
  characters (faithful on the ASCII letters the `"yes"` test cares about).
* Python `"yes" in t` is modelled by the executable scan `hasYes` over the
  character list; `hasYes_iff_decomposition` relates it to the mathematical
  substring statement.
* A Python f-string rendering of `state.get(k)` prints `None` when the key is
  absent; `optStr` reproduces that.
* The global dict `active_calls` is modelled by `CallStore := String → Option
  ConvState`; `dict.setdefault`, `dict.get(k, d)` and `dict[k] = v` become
  `setdefaultStore`, `getStore` and `storeInsert`.
-/

/-- Whitespace test used by `str.strip()`; `Char.isWhitespace` covers the
space, tab, carriage-return and line-feed characters that matter here. -/
def pyWS (c : Char) : Bool := c.isWhitespace

/-- Drop leading whitespace from a character list (left part of `str.strip()`). -/
def lstripL : List Char → List Char
  | [] => []
  | c :: cs => if pyWS c then lstripL cs else c :: cs

/-- Drop trailing whitespace from a character list (right part of `str.strip()`). -/
def rstripL : List Char → List Char
  | [] => []
  | c :: cs =>
    match rstripL cs with
    | [] => if pyWS c then [] else [c]
    | d :: ds => c :: d :: ds

/-- `str.strip()` on character lists: drop whitespace from both ends. -/
def stripL (l : List Char) : List Char := rstripL (lstripL l)

/-- Python `text.strip()` (main.py line 42). -/
def pyStrip (s : String) : String := String.mk (stripL s.data)

/-- Python `text.lower()` as a character list (main.py line 76). -/
def pyLowerData (s : String) : List Char := s.data.map Char.toLower

/-- Does the character list start with `y`, `e`, `s`? -/
def startsWithYes : List Char → Bool
  | c :: d :: e :: _ => c == 'y' && d == 'e' && e == 's'
  | _ => false

/-- Python `"yes" in l` on character lists: scan for the substring. -/
def hasYes : List Char → Bool
  | [] => false
  | c :: rest => startsWithYes (c :: rest) || hasYes rest

/-- The conversation-state dictionary of main.py, restricted to the four keys
the program reads or writes.  `none` models an absent key. -/
structure ConvState where
  step : Option String
  location : Option String
  dates : Option String
  room_type : Option String
deriving DecidableEq

/-- The fresh record `{"step": "ask_location"}` (main.py lines 58, 80, 107, 134). -/
def freshState : ConvState :=
  { step := some "ask_location", location := none, dates := none, room_type := none }

/-- Rendering of an optional dict value inside a Python f-string:
`None` prints as the text `None` (main.py lines 73-74). -/
def optStr : Option String → String
  | some s => s
  | none => "None"

/-- The transition function `process_user_input` of main.py lines 35-87,
branch for branch.  `text0` is the raw utterance; the function first strips
it (line 42).  The condition `not state or "step" not in state` (line 57)
is `state.step = none` in this model. -/
def process_user_input (text0 : String) (state : ConvState) : String × ConvState :=
  if pyStrip text0 = "" then
    if state.step.getD "ask_location" = "ask_location" then
      ("Which city or hotel are you interested in?", state)
    else if state.step.getD "ask_location" = "ask_dates" then
      ("What dates would you like to book? Please say your check-in and check-out dates.", state)
    else if state.step.getD "ask_location" = "ask_room_type" then
      ("What type of room would you like? For example, single, double, or suite.", state)
    else if state.step.getD "ask_location" = "confirm" then
      ("Please confirm your booking. Is that correct?", state)
    else
      ("Please provide your input.", state)
  else if state.step = none then
    ("Which city or hotel are you interested in?", freshState)
  else if state.step = some "ask_location" then
    ("Great! What dates would you like to book for in " ++ pyStrip text0 ++
       "? Please say your check-in and check-out dates.",
     { state with location := some (pyStrip text0), step := some "ask_dates" })
  else if state.step = some "ask_dates" then
    ("Thank you. What type of room would you like? For example, single, double, or suite.",
     { state with dates := some (pyStrip text0), step := some "ask_room_type" })
  else if state.step = some "ask_room_type" then
    ("Please confirm: you want to book a " ++ pyStrip text0 ++ " room for dates " ++
       optStr state.dates ++ " in " ++ optStr state.location ++ ". Is that correct?",
     { state with room_type := some (pyStrip text0), step := some "confirm" })
  else if state.step = some "confirm" then
    if hasYes (pyLowerData (pyStrip text0)) then
      ("Your booking has been confirmed. Thank you for choosing our service.",
       { state with step := some "booked" })
    else
      ("Let\x27s start over. Which city or hotel are you interested in?", freshState)
  else if state.step = some "booked" then
    ("Your booking is already confirmed. Thank you for choosing our service.", state)
  else
    ("I\x27m sorry, I didn\x27t understand that. Could you please repeat?", state)

/-- The transition function over a possibly-null state argument: Python's
`state: dict` parameter may be `None`.  On the empty-utterance path the code
calls `state.get("step", ...)` (main.py line 45) before the `not state`
guard (line 57), so a null state raises `AttributeError` there; on the
nonempty path `not state` is true of `None` (short-circuiting before
`"step" not in state`), and the code returns the fresh record and the
`ask_location` prompt.  A non-null state behaves as `process_user_input`. -/
def process_user_input_opt (text0 : String) (state : Option ConvState) :
    Except String (String × ConvState) :=
  if pyStrip text0 = "" then
    match state with
    | none => Except.error "AttributeError"
    | some st => Except.ok (process_user_input text0 st)
  else
    match state with
    | none => Except.ok ("Which city or hotel are you interested in?", freshState)
    | some st => Except.ok (process_user_input text0 st)

/-- The session store `active_calls` (main.py line 33): call SID to state. -/
def CallStore : Type := String → Option ConvState

/-- The empty store the process starts with. -/
def emptyStore : CallStore := fun _ => none

/-- Python `active_calls[k] = v` (main.py line 136). -/
def storeInsert (m : CallStore) (k : String) (v : ConvState) : CallStore :=
  fun k2 => if k2 = k then some v else m k2

/-- Python `active_calls.setdefault(k, v)` (main.py line 107): store `v`
under `k` only when `k` has no entry. -/
def setdefaultStore (m : CallStore) (k : String) (v : ConvState) : CallStore :=
  match m k with
  | some _ => m
  | none => storeInsert m k v

/-- The session-store effect of `incoming_call` (main.py lines 105-108):
`if call_sid: active_calls.setdefault(call_sid, {"step": "ask_location"})`. -/
def incoming_call_update (m : CallStore) (callSid : String) : CallStore :=
  if callSid = "" then m else setdefaultStore m callSid freshState

/-- The lookup of `gather_response` (main.py line 134):
`active_calls.get(call_sid, {"step": "ask_location"})` returns the stored
record or the fresh default, and leaves the store untouched. -/
def gather_lookup (m : CallStore) (callSid : String) : ConvState × CallStore :=
  ((m callSid).getD freshState, m)

/-- The session-store effect of `gather_response` (main.py lines 134-136):
look up with default, run the transition, store the updated state. -/
def gather_response_step (m : CallStore) (callSid text : String) : String × CallStore :=
  (((process_user_input text ((m callSid).getD freshState)).1),
   storeInsert m callSid (process_user_input text ((m callSid).getD freshState)).2)

/-- Re-ask prompt for an empty utterance, as a function of the current `step`
(amended form of the spec's case 1): a missing `step` defaults to the
`ask_location` prompt, a present but unrecognized `step` gets the generic
`Please provide your input.` reply. -/
def promptForEmpty (st : Option String) : String :=
  if st.getD "ask_location" = "ask_location" then
    "Which city or hotel are you interested in?"
  else if st.getD "ask_location" = "ask_dates" then
    "What dates would you like to book? Please say your check-in and check-out dates."
  else if st.getD "ask_location" = "ask_room_type" then
    "What type of room would you like? For example, single, double, or suite."
  else if st.getD "ask_location" = "confirm" then
    "Please confirm your booking. Is that correct?"
  else
    "Please provide your input."

/-- Field-order invariant of the booking flow (spec section 3): each collected
field is non-empty exactly when its step has been passed. -/
def FieldOrderInv (S : ConvState) : Prop :=
  (S.step = some "ask_location" → S.location = none ∧ S.dates = none ∧ S.room_type = none) ∧
  (S.step = some "ask_dates" → S.location.isSome = true ∧ S.dates = none ∧ S.room_type = none) ∧
  (S.step = some "ask_room_type" →
    S.location.isSome = true ∧ S.dates.isSome = true ∧ S.room_type = none) ∧
  (S.step = some "confirm" →
    S.location.isSome = true ∧ S.dates.isSome = true ∧ S.room_type.isSome = true) ∧
  (S.step = some "booked" →
    S.location.isSome = true ∧ S.dates.isSome = true ∧ S.room_type.isSome = true)

instance (S : ConvState) : Decidable (FieldOrderInv S) := by
  unfold FieldOrderInv; infer_instance

/-- Left-stripping is idempotent. -/
theorem lstripL_idem (l : List Char) : lstripL (lstripL l) = lstripL l := by
  induction l with
  | nil => rfl
  | cons c cs ih =>
    by_cases h : pyWS c
    · simp [lstripL, h, ih]
    · simp [lstripL, h]

/-- The head of a left-stripped list is not whitespace. -/
theorem lstripL_head_not_ws (l : List Char) (c : Char) (cs : List Char)
    (h : lstripL l = c :: cs) : pyWS c = false := by
  induction l with
  | nil => simp [lstripL] at h
  | cons a as ih =>
    by_cases hw : pyWS a
    · exact ih (by simpa [lstripL, hw] using h)
    · rw [lstripL, if_neg hw] at h
      cases h
      simpa using hw

/-- Right-stripping keeps the head of a nonempty list when the result is
nonempty. -/
theorem rstripL_head (c : Char) (cs : List Char) :
    rstripL (c :: cs) = [] ∨ ∃ ds, rstripL (c :: cs) = c :: ds := by
  rw [rstripL]
  cases h : rstripL cs with
  | nil =>
    by_cases hw : pyWS c
    · exact Or.inl (by simp [hw])
    · exact Or.inr ⟨[], by simp [hw]⟩
  | cons d ds => exact Or.inr ⟨d :: ds, rfl⟩

/-- Unfolding equation for `rstripL` on a cons cell. -/
theorem rstripL_cons (c : Char) (cs : List Char) :
    rstripL (c :: cs) = match rstripL cs with
      | [] => if pyWS c then [] else [c]
      | d :: ds => c :: d :: ds := rfl

/-- Right-stripping is idempotent. -/
theorem rstripL_idem (l : List Char) : rstripL (rstripL l) = rstripL l := by
  induction l with
  | nil => rfl
  | cons c cs ih =>
    cases h : rstripL cs with
    | nil =>
      have h1 : rstripL (c :: cs) = if pyWS c then [] else [c] := by rw [rstripL_cons, h]
      by_cases hw : pyWS c
      · rw [h1, if_pos hw]; rfl
      · rw [h1, if_neg hw, rstripL_cons]
        simp [rstripL, hw]
    | cons d ds =>
      have h1 : rstripL (c :: cs) = c :: d :: ds := by rw [rstripL_cons, h]
      rw [h1, rstripL_cons]
      rw [h] at ih
      rw [ih]

/-- Stripping both ends is idempotent on character lists. -/
theorem stripL_idem (l : List Char) : stripL (stripL l) = stripL l := by
  unfold stripL
  have hl : lstripL (rstripL (lstripL l)) = rstripL (lstripL l) := by
    cases hm : lstripL l with
    | nil => simp [rstripL, lstripL]
    | cons c cs =>
      have hc : pyWS c = false := lstripL_head_not_ws l c cs hm
      rcases rstripL_head c cs with h | ⟨ds, h⟩
      · rw [h]; rfl
      · rw [h, lstripL, hc]; simp
  rw [hl, rstripL_idem]

/-- `str.strip()` is idempotent. -/
theorem pyStrip_idem (s : String) : pyStrip (pyStrip s) = pyStrip s := by
  unfold pyStrip
  exact congrArg String.mk (stripL_idem s.data)

/-- `startsWithYes` holds exactly when the list literally starts with the
three characters of `yes`. -/
theorem startsWithYes_iff (l : List Char) :
    startsWithYes l = true ↔ ∃ t, l = 'y' :: 'e' :: 's' :: t := by
  rcases l with _ | ⟨c, _ | ⟨d, _ | ⟨e, t⟩⟩⟩ <;> simp [startsWithYes]
  exact and_assoc

/-- The scan `hasYes` agrees with the mathematical substring statement:
some decomposition of the list surrounds the three characters of `yes`. -/
theorem hasYes_iff_decomposition (l : List Char) :
    hasYes l = true ↔ ∃ a b, l = a ++ ('y' :: 'e' :: 's' :: []) ++ b := by
  induction l with
  | nil =>
    simp [hasYes]
  | cons c cs ih =>
    rw [hasYes, Bool.or_eq_true]
    constructor
    · rintro (h | h)
      · obtain ⟨t, ht⟩ := (startsWithYes_iff _).mp h
        exact ⟨[], t, by simpa using ht⟩
      · obtain ⟨a, b, hab⟩ := ih.mp h
        exact ⟨c :: a, b, by simp [hab]⟩
    · rintro ⟨a, b, hab⟩
      cases a with
      | nil =>
        left
        apply (startsWithYes_iff _).mpr
        exact ⟨b, by simpa using hab⟩
      | cons x xs =>
        right
        apply ih.mpr
        have hx : c = x ∧ cs = xs ++ ('y' :: 'e' :: 's' :: []) ++ b := by
          simpa using hab
        exact ⟨xs, b, hx.2⟩

/-- A string whose left part is nonempty is nonempty. -/
theorem append_ne_empty_left (a b : String) (ha : a ≠ "") : a ++ b ≠ "" := by
  intro h
  apply ha
  have hl := congrArg String.length h
  rw [String.length_append] at hl
  have h0 : a.length = 0 := by
    have : ("" : String).length = 0 := rfl
    omega
  have hd : a.data.length = 0 := h0
  cases a with
  | mk d =>
    cases d with
    | nil => rfl
    | cons x xs => simp at hd

/-- On every state record, `process_user_input` returns a pair whose reply
string is nonempty: every branch returns a reply literal or a literal-headed
concatenation together with a state record. -/
theorem process_user_input_ok_nonempty (u : String) (S : ConvState) :
    ∃ reply S2, process_user_input u S = (reply, S2) ∧ reply ≠ "" := by
  unfold process_user_input
  repeat' split
  all_goals refine ⟨_, _, rfl, ?_⟩
  all_goals first
    | decide
    | (repeat' apply append_ne_empty_left
       decide)

/-- On a non-null state the nullable transition function agrees with
`process_user_input` and cannot error. -/
theorem process_user_input_opt_some (u : String) (st : ConvState) :
    process_user_input_opt u (some st) = Except.ok (process_user_input u st) := by
  unfold process_user_input_opt
  by_cases he : pyStrip u = "" <;> simp [he]

/-- C1, counterexample.  The transition function is not total on the claim's
domain: on the empty utterance with a null state the code raises
`AttributeError`, because `state.get("step", ...)` at main.py line 45 runs
before the `not state` guard at line 57. -/
theorem process_user_input_null_counterexample :
    process_user_input_opt "" none = Except.error "AttributeError" := rfl

/-- C1, amended.  Totality holds everywhere except one error path: on every
state record (step present, garbage, or absent) the function returns a
well-defined pair with a nonempty reply for any utterance, and on a null
state with a nonempty stripped utterance it returns the `ask_location`
prompt and the fresh record; but a null state combined with an empty or
whitespace-only utterance raises `AttributeError`. -/
theorem process_user_input_total_amended (u : String) (S : Option ConvState) :
    (∀ st, S = some st →
      ∃ reply S2, process_user_input_opt u S = Except.ok (reply, S2) ∧ reply ≠ "") ∧
    (S = none → pyStrip u ≠ "" →
      process_user_input_opt u S =
        Except.ok ("Which city or hotel are you interested in?", freshState)) ∧
    (S = none → pyStrip u = "" →
      process_user_input_opt u S = Except.error "AttributeError") := by
  refine ⟨?_, ?_, ?_⟩
  · rintro st rfl
    obtain ⟨reply, S2, h, hne⟩ := process_user_input_ok_nonempty u st
    exact ⟨reply, S2, by rw [process_user_input_opt_some, h], hne⟩
  · rintro rfl hne
    unfold process_user_input_opt
    rw [if_neg hne]
  · rintro rfl he
    unfold process_user_input_opt
    rw [if_pos he]

/-- C1, witness: a concrete utterance on a record state yields a well-defined
nonempty reply, and the same utterance on the null state yields the
`ask_location` prompt with the fresh record. -/
theorem process_user_input_total_amended_witness :
    (∃ reply S2, process_user_input_opt "hello" (some freshState) =
        Except.ok (reply, S2) ∧ reply ≠ "") ∧
    process_user_input_opt "hello" none =
      Except.ok ("Which city or hotel are you interested in?", freshState) := by
  constructor
  · exact (process_user_input_total_amended "hello" (some freshState)).1 freshState rfl
  · exact (process_user_input_total_amended "hello" none).2.1 rfl (by decide)

/-- C2, counterexample.  On the empty utterance in a state whose `step` is the
unrecognized value `bogus`, the code replies `Please provide your input.`,
not the `ask_location` prompt the claim prescribes (the state is indeed left
unchanged). -/
theorem process_user_input_empty_bogus_counterexample :
    process_user_input ""
        { step := some "bogus", location := none, dates := none, room_type := none } =
      ("Please provide your input.",
       { step := some "bogus", location := none, dates := none, room_type := none }) ∧
    ("Please provide your input." : String) ≠ "Which city or hotel are you interested in?" := by
  exact ⟨by decide, by decide⟩

/-- C2, amended.  Silence idempotence: an empty utterance never mutates the
state and the reply is a function of the current `step` alone — the per-step
re-ask prompt, the `ask_location` prompt when `step` is missing, and the
generic `Please provide your input.` when `step` is present but
unrecognized. -/
theorem process_user_input_empty_reask (S : ConvState) :
    process_user_input "" S = (promptForEmpty S.step, S) := by
  have h0 : pyStrip "" = "" := by decide
  unfold process_user_input promptForEmpty
  rw [if_pos h0]
  repeat' split
  all_goals simp_all

/-- C3.  Happy-path progression: on a trimmed nonempty utterance, step
`ask_location` stores it into `location` and advances to `ask_dates`, step
`ask_dates` stores it into `dates` and advances to `ask_room_type`, and step
`ask_room_type` stores it into `room_type`, advances to `confirm`, and the
reply restates the room type, dates and location; all other fields of the
state are left unchanged. -/
theorem process_user_input_happy_path (u : String) (S : ConvState)
    (ht : pyStrip u = u) (hne : u ≠ "") :
    (S.step = some "ask_location" →
      process_user_input u S =
        ("Great! What dates would you like to book for in " ++ u ++
           "? Please say your check-in and check-out dates.",
         { S with location := some u, step := some "ask_dates" })) ∧
    (S.step = some "ask_dates" →
      process_user_input u S =
        ("Thank you. What type of room would you like? For example, single, double, or suite.",
         { S with dates := some u, step := some "ask_room_type" })) ∧
    (S.step = some "ask_room_type" →
      process_user_input u S =
        ("Please confirm: you want to book a " ++ u ++ " room for dates " ++
           optStr S.dates ++ " in " ++ optStr S.location ++ ". Is that correct?",
         { S with room_type := some u, step := some "confirm" })) := by
  refine ⟨fun hstep => ?_, fun hstep => ?_, fun hstep => ?_⟩ <;>
    simp [process_user_input, ht, hne, hstep]

/-- C3, witness: processing `Paris` at step `ask_location` stores the city
and advances to `ask_dates`. -/
theorem process_user_input_happy_path_witness :
    process_user_input "Paris"
        { step := some "ask_location", location := none, dates := none, room_type := none } =
      ("Great! What dates would you like to book for in Paris? Please say your check-in and check-out dates.",
       { step := some "ask_dates", location := some "Paris", dates := none, room_type := none }) := by
  have h := (process_user_input_happy_path "Paris"
    { step := some "ask_location", location := none, dates := none, room_type := none }
    (by decide) (by decide)).1 rfl
  rw [h]
  decide

/-- C4.  Confirmation decision at step `confirm`: on a trimmed nonempty
utterance the next step is `booked` exactly when the lowercased utterance
contains `yes` as an unanchored substring, and any utterance without `yes`
resets the state to exactly the fresh `ask_location` record with the
restart-and-re-ask reply. -/
theorem process_user_input_confirm_yes (u : String) (S : ConvState)
    (ht : pyStrip u = u) (hne : u ≠ "") (hstep : S.step = some "confirm") :
    ((process_user_input u S).2.step = some "booked" ↔
      ∃ a b, pyLowerData u = a ++ ('y' :: 'e' :: 's' :: []) ++ b) ∧
    ((¬ ∃ a b, pyLowerData u = a ++ ('y' :: 'e' :: 's' :: []) ++ b) →
      process_user_input u S =
        ("Let\x27s start over. Which city or hotel are you interested in?", freshState)) := by
  have key := hasYes_iff_decomposition (pyLowerData u)
  constructor
  · by_cases hy : hasYes (pyLowerData u) = true
    · simp only [process_user_input, ht, hne, hstep, hy]
      simp only [← key, hy]
      simp [freshState]
    · simp only [process_user_input, ht, hstep, hy]
      simp only [← key]
      simp [freshState, hne, hy]
  · intro hnot
    have hy : hasYes (pyLowerData u) = false := by
      by_contra hcon
      exact hnot (key.mp (by simpa using hcon))
    simp [process_user_input, ht, hne, hstep, hy]

/-- C4, witness: a declining utterance at step `confirm` resets to the fresh
record and announces the restart. -/
theorem process_user_input_confirm_yes_witness :
    process_user_input "no"
        { step := some "confirm", location := some "Paris", dates := some "June",
          room_type := some "double" } =
      ("Let\x27s start over. Which city or hotel are you interested in?", freshState) := by
  refine (process_user_input_confirm_yes "no"
    { step := some "confirm", location := some "Paris", dates := some "June",
      room_type := some "double" }
    (by decide) (by decide) rfl).2 ?_
  intro hex
  have hy : hasYes (pyLowerData "no") = true := (hasYes_iff_decomposition _).mpr hex
  exact absurd hy (by decide)

/-- C5.  Uninitialized-state precedence: on a trimmed nonempty utterance and
a state with no `step` key, the code replies with the `ask_location` prompt
and replaces the state by the fresh record; the utterance is not consumed as
a location (the fresh record has no `location`). -/
theorem process_user_input_uninitialized (u : String) (S : ConvState)
    (ht : pyStrip u = u) (hne : u ≠ "") (hstep : S.step = none) :
    process_user_input u S = ("Which city or hotel are you interested in?", freshState) := by
  simp [process_user_input, ht, hne, hstep]

/-- C5, witness: the very first utterance `Paris` on the empty record only
initializes the flow and is not stored as a location. -/
theorem process_user_input_uninitialized_witness :
    process_user_input "Paris"
        { step := none, location := none, dates := none, room_type := none } =
      ("Which city or hotel are you interested in?", freshState) :=
  process_user_input_uninitialized "Paris"
    { step := none, location := none, dates := none, room_type := none }
    (by decide) (by decide) rfl

/-- C6, counterexample.  On the empty utterance in the booked state the code
replies `Please provide your input.`, not the already-confirmed message the
claim prescribes for every utterance (the state is indeed unchanged). -/
theorem process_user_input_booked_empty_counterexample :
    process_user_input ""
        { step := some "booked", location := none, dates := none, room_type := none } =
      ("Please provide your input.",
       { step := some "booked", location := none, dates := none, room_type := none }) ∧
    ("Please provide your input." : String) ≠
      "Your booking is already confirmed. Thank you for choosing our service." := by
  exact ⟨by decide, by decide⟩

/-- C6, amended.  Terminal idempotence: in a state at step `booked` the state
is never mutated, for any utterance; the already-confirmed message is the
reply whenever the stripped utterance is nonempty (an empty or
whitespace-only utterance gets the generic input prompt instead). -/
theorem process_user_input_booked_terminal (u : String) (S : ConvState)
    (hstep : S.step = some "booked") :
    (process_user_input u S).2 = S ∧
    (pyStrip u ≠ "" →
      (process_user_input u S).1 =
        "Your booking is already confirmed. Thank you for choosing our service.") := by
  by_cases he : pyStrip u = ""
  · simp [process_user_input, he, hstep]
  · simp [process_user_input, he, hstep]

/-- C6, witness: a repeated utterance in the booked state leaves the record
unchanged and replies that the booking is already confirmed. -/
theorem process_user_input_booked_terminal_witness :
    (process_user_input "hello"
        { step := some "booked", location := none, dates := none, room_type := none }).2 =
      { step := some "booked", location := none, dates := none, room_type := none } :=
  (process_user_input_booked_terminal "hello"
    { step := some "booked", location := none, dates := none, room_type := none } rfl).1

/-- C7.  Unknown-step recovery: on a trimmed nonempty utterance and a state
whose `step` is present but none of the five enumerated values, the code
leaves the state entirely unchanged and replies with the generic
did-not-understand message. -/
theorem process_user_input_unknown_step (u : String) (S : ConvState) (s : String)
    (ht : pyStrip u = u) (hne : u ≠ "") (hstep : S.step = some s)
    (h1 : s ≠ "ask_location") (h2 : s ≠ "ask_dates") (h3 : s ≠ "ask_room_type")
    (h4 : s ≠ "confirm") (h5 : s ≠ "booked") :
    process_user_input u S =
      ("I\x27m sorry, I didn\x27t understand that. Could you please repeat?", S) := by
  simp [process_user_input, ht, hne, hstep, h1, h2, h3, h4, h5]

/-- C7, witness: any utterance in a state at the bogus step leaves the state
unchanged and yields the generic reply. -/
theorem process_user_input_unknown_step_witness :
    process_user_input "anything"
        { step := some "bogus", location := none, dates := none, room_type := none } =
      ("I\x27m sorry, I didn\x27t understand that. Could you please repeat?",
       { step := some "bogus", location := none, dates := none, room_type := none }) :=
  process_user_input_unknown_step "anything"
    { step := some "bogus", location := none, dates := none, room_type := none } "bogus"
    (by decide) (by decide) rfl (by decide) (by decide) (by decide) (by decide) (by decide)

/-- C8, counterexample.  The lookup of `gather_response` is a plain
dictionary read with a default: on the empty store it returns the usable
fresh state, yet it stores nothing — the store still has no record for the
call id, contradicting the claim that the lookup creates and stores the
fresh record. -/
theorem session_store_lookup_counterexample :
    (gather_lookup emptyStore "C1").1 = freshState ∧
    ((gather_lookup emptyStore "C1").2) "C1" = none :=
  ⟨rfl, rfl⟩

/-- C8, amended.  Every session-store lookup yields a usable state:
`incoming_call` (for a nonempty call id) keeps an existing record and stores
the fresh record when none exists, while `gather_response` reads the
existing record or the fresh default without storing it, and afterwards
unconditionally stores the post-transition state. -/
theorem session_store_get_or_create (m : CallStore) (k : String) (hk : k ≠ "") :
    (∀ v, m k = some v → incoming_call_update m k = m ∧ (gather_lookup m k).1 = v) ∧
    (m k = none → (incoming_call_update m k) k = some freshState ∧
      (gather_lookup m k).1 = freshState) ∧
    (∀ u, (gather_response_step m k u).2 k =
      some (process_user_input u ((m k).getD freshState)).2) := by
  refine ⟨?_, ?_, ?_⟩
  · intro v hv
    constructor
    · simp [incoming_call_update, hk, setdefaultStore, hv]
    · simp [gather_lookup, hv]
  · intro hv
    constructor
    · simp [incoming_call_update, hk, setdefaultStore, hv, storeInsert]
    · simp [gather_lookup, hv]
  · intro u
    simp [gather_response_step, storeInsert]

/-- C8, witness: on the empty store, the call-start handler stores the fresh
record under the call id and the speech handler's lookup returns it. -/
theorem session_store_get_or_create_witness :
    (incoming_call_update emptyStore "C1") "C1" = some freshState ∧
    (gather_lookup emptyStore "C1").1 = freshState :=
  (session_store_get_or_create emptyStore "C1" (by decide)).2.1 rfl

/-- C9.  Field-order invariant: each collected field is set exactly when its
step has been passed; the invariant holds of the fresh record and is
preserved by `process_user_input` on every utterance. -/
theorem process_user_input_invariant :
    FieldOrderInv freshState ∧
    ∀ (u : String) (S : ConvState),
      FieldOrderInv S → FieldOrderInv (process_user_input u S).2 := by
  constructor
  · decide
  · intro u S hS
    unfold process_user_input
    repeat' split
    all_goals simp_all [FieldOrderInv, freshState]

/-- C9, witness: the invariant holds of the fresh record and survives the
first transition. -/
theorem process_user_input_invariant_witness :
    FieldOrderInv (process_user_input "Paris" freshState).2 :=
  process_user_input_invariant.2 "Paris" freshState (by decide)

/-- C10.  Implicit whitespace normalization: processing an utterance is the
same as processing its stripped form, because the function strips first and
stripping is idempotent; in particular a whitespace-only utterance behaves
exactly like the empty one and stored field values are always stripped. -/
theorem process_user_input_strip_normalization (u : String) (S : ConvState) :
    process_user_input u S = process_user_input (pyStrip u) S := by
  unfold process_user_input
  rw [pyStrip_idem]
